import Mathlib

/-!
Verification of the ration-optimization core of `ransumruminansia.py`.

The numeric domain of the program (Python floats) is embedded as `ℚ`; all
arithmetic performed by the program on concrete inputs is exact in this range.
Feed rows are the rows of `df_pakan` / `mineral_df` after name resolution,
and the "Optimalisasi Otomatis" handler (lines 1150-1217 of the source) is
embedded as explicit list-building functions below.
-/

namespace Ransum

/-- One resolved feed or mineral-supplement row: the columns of `df_pakan`
and `mineral_df` that the optimizer reads (`Nama Pakan`, `Protein (%)`,
`TDN (%)`, `Ca (%)`, `P (%)`, `Mg (%)`, `Fe (ppm)`, `Cu (ppm)`, `Zn (ppm)`,
`Harga (Rp/kg)`). -/
structure FeedRow where
  nama : String
  protein : ℚ
  tdn : ℚ
  ca : ℚ
  p : ℚ
  mg : ℚ
  fe : ℚ
  cu : ℚ
  zn : ℚ
  harga : ℚ
deriving DecidableEq, Repr

/-- The nutrient-requirement values that `nutrient_req.get(key, 0)` yields for
the eight keys used by the optimizer (a missing key yields `0`, so a total
record with possibly-zero fields is a faithful model of the dictionary). -/
structure NutrientReq where
  protein : ℚ
  tdn : ℚ
  ca : ℚ
  p : ℚ
  mg : ℚ
  fe : ℚ
  cu : ℚ
  zn : ℚ
deriving DecidableEq, Repr

/-- The eight nutrient codes constrained by the optimizer, in the order the
source appends their rows: protein, TDN, then the mineral loop
`['Ca (%)', 'P (%)', 'Mg (%)', 'Fe (ppm)', 'Cu (ppm)', 'Zn (ppm)']`. -/
inductive Nutrient
  | protein | tdn | ca | p | mg | fe | cu | zn
deriving DecidableEq, Repr

/-- Concentration of a nutrient in a feed row (the column the source reads). -/
def Nutrient.conc : Nutrient → FeedRow → ℚ
  | .protein, f => f.protein
  | .tdn, f => f.tdn
  | .ca, f => f.ca
  | .p, f => f.p
  | .mg, f => f.mg
  | .fe, f => f.fe
  | .cu, f => f.cu
  | .zn, f => f.zn

/-- Requirement threshold of a nutrient (the value `nutrient_req.get(key, 0)`). -/
def Nutrient.reqOf : Nutrient → NutrientReq → ℚ
  | .protein, r => r.protein
  | .tdn, r => r.tdn
  | .ca, r => r.ca
  | .p, r => r.p
  | .mg, r => r.mg
  | .fe, r => r.fe
  | .cu, r => r.cu
  | .zn, r => r.zn

/-- Index of the nutrient's row in the built inequality system `A_ub`. -/
def Nutrient.idx : Nutrient → ℕ
  | .protein => 0
  | .tdn => 1
  | .ca => 2
  | .p => 3
  | .mg => 4
  | .fe => 5
  | .cu => 6
  | .zn => 7

/-- Whether the nutrient's column is expressed in parts per million
(`Fe (ppm)`, `Cu (ppm)`, `Zn (ppm)`); the source tests `'ppm' in key`. -/
def Nutrient.isPpm : Nutrient → Bool
  | .fe => true
  | .cu => true
  | .zn => true
  | _ => false

/-- Objective vector `c`: cost per kg of each selected feed
(source lines 1158-1167). -/
def objective (feeds : List FeedRow) : List ℚ :=
  feeds.map (fun f => f.harga)

/-- Inequality matrix `A_ub` as the source builds it (lines 1169-1214):
the protein row, the TDN row, the six mineral rows with coefficients
`-feed_data.get(mineral, 0)` (ppm columns used as-is, never rescaled), and
finally the two total-amount rows of `-1`s and `1`s. -/
def buildA (feeds : List FeedRow) : List (List ℚ) :=
  [feeds.map (fun f => -f.protein),
   feeds.map (fun f => -f.tdn),
   feeds.map (fun f => -f.ca),
   feeds.map (fun f => -f.p),
   feeds.map (fun f => -f.mg),
   feeds.map (fun f => -f.fe),
   feeds.map (fun f => -f.cu),
   feeds.map (fun f => -f.zn),
   List.replicate feeds.length (-1),
   List.replicate feeds.length 1]

/-- Right-hand sides `b_ub` as the source builds them (lines 1178-1214):
`-required * min_amount` for the percentage rows, and
`-required * min_amount / 1000` for the ppm rows (the `'ppm' in key` branch
of line 1205), then `-min_amount` and `max_amount`. -/
def buildB (req : NutrientReq) (minA maxA : ℚ) : List ℚ :=
  [-req.protein * minA,
   -req.tdn * minA,
   -req.ca * minA,
   -req.p * minA,
   -req.mg * minA,
   -req.fe * minA / 1000,
   -req.cu * minA / 1000,
   -req.zn * minA / 1000,
   -minA,
   maxA]

/-- Dot product of a coefficient row with a variable vector (extra entries of
either list beyond the common length contribute nothing, matching the fact
that `linprog` only ever pairs equal-length vectors). -/
def dot : List ℚ → List ℚ → ℚ
  | [], _ => 0
  | _ :: _, [] => 0
  | a :: as, x :: xs => a * x + dot as xs

/-- Feasibility for the LP `A·x ≤ b, x ≥ 0` that the source passes to
`linprog(c, A_ub=A_ub, b_ub=b_ub, bounds=(0, None), method='highs')`. -/
def feasible (A : List (List ℚ)) (b : List ℚ) (x : List ℚ) : Prop :=
  (∀ q ∈ x, 0 ≤ q) ∧ ∀ i : Fin A.length, dot (A.getD i.1 []) x ≤ b.getD i.1 0

instance (A : List (List ℚ)) (b : List ℚ) (x : List ℚ) : Decidable (feasible A b x) := by
  unfold feasible; infer_instance

/-- Optimality: feasible and of minimal objective value among feasible points. -/
def isOptimal (c : List ℚ) (A : List (List ℚ)) (b : List ℚ) (x : List ℚ) : Prop :=
  feasible A b x ∧ ∀ y, feasible A b y → dot c x ≤ dot c y

/-- Outcome of the "Optimasi Ransum" button handler: either the guarded block
does not run at all, or it runs and hands `(c, A_ub, b_ub)` to `linprog`. -/
inductive OptOutcome
  | notRun : OptOutcome
  | ran : List ℚ → List (List ℚ) → List ℚ → OptOutcome
deriving DecidableEq, Repr

/-- The guard and assembly of the optimization handler (source line 1150:
`if st.button("Optimasi Ransum", key="optimize_button") and all_available_feeds:`,
followed by the constraint assembly of lines 1152-1217). An empty feed list
makes the conjunction falsy, so the whole block is skipped silently. -/
def optimizeHandler (pressed : Bool) (feeds : List FeedRow) (req : NutrientReq)
    (minA maxA : ℚ) : OptOutcome :=
  if pressed && !feeds.isEmpty then
    OptOutcome.ran (objective feeds) (buildA feeds) (buildB req minA maxA)
  else OptOutcome.notRun

/-- A Streamlit message emitted while rendering (only the constructors the
embedded fragments use). -/
inductive UIMsg
  | errorMsg : String → UIMsg
  | successMsg : String → UIMsg
deriving DecidableEq, Repr

/-- The branch structure at source lines 1219-1227 read off the indentation:
`if result.success:` has an empty suite, and the `else:` suite emits
`st.error("Optimasi gagal. ...")` followed immediately by
`st.success("Optimasi berhasil!")`, then an inner
`if result.success and result.x is not None:` whose own `else` emits a second
error and returns. The returned pair is (messages emitted, early-return flag).
As written the fragment is not even valid Python (an `if` with an empty suite
and a `return` at module level are syntax errors); this function embeds the
statement sequence the indentation dictates. -/
def solverFailureBranch (success : Bool) (x : Option (List ℚ)) : List UIMsg × Bool :=
  if success then ([], false)
  else
    let msgs := [UIMsg.errorMsg "Optimasi gagal. Silakan periksa kembali input dan batasan.",
                 UIMsg.successMsg "Optimasi berhasil!"]
    if success && x.isSome then (msgs, false)
    else (msgs ++ [UIMsg.errorMsg "Optimasi gagal atau menghasilkan data yang tidak valid. Silakan periksa kembali input dan batasan."], true)

/-- The summary computation at source lines 1286-1288:
`total_amt = sum(opt_data['Jumlah (kg)'])` and
`avg_protein = sum(opt_data['Protein (kg)']) * 100 / total_amt`, where
`opt_data['Protein (kg)'][i] = optimized_amounts[i] * feed_data['Protein (%)'] / 100`.
Python float division raises `ZeroDivisionError` when the divisor is zero;
that exceptional outcome is the `Except.error` case. -/
def optAvgProtein (feeds : List FeedRow) (x : List ℚ) : Except String ℚ :=
  if List.sum x = 0 then Except.error "ZeroDivisionError"
  else Except.ok (dot (feeds.map (fun f => f.protein / 100)) x * 100 / List.sum x)

/-- The function `calculate_nutrition_content` (source lines 121-148): when
`total_amount <= 0` every component of the returned tuple is `None` (modelled
as `none`); otherwise it returns the averages, the cost, the amount and the
per-herd totals. `feedData` and `amounts` are the parallel lists backing the
`feed_data` / `feed_amounts` dictionaries. -/
def calculate_nutrition_content (feedData : List FeedRow) (amounts : List ℚ)
    (jumlahTernak : ℚ) : Option (ℚ × ℚ × ℚ × ℚ × ℚ × ℚ × ℚ × ℚ × ℚ) :=
  if List.sum amounts ≤ 0 then none
  else
    some (dot (feedData.map (fun f => f.protein)) amounts / List.sum amounts,
          dot (feedData.map (fun f => f.tdn)) amounts / List.sum amounts,
          dot (feedData.map (fun f => f.ca)) amounts / List.sum amounts,
          dot (feedData.map (fun f => f.p)) amounts / List.sum amounts,
          dot (feedData.map (fun f => f.mg)) amounts / List.sum amounts,
          dot (feedData.map (fun f => f.harga)) amounts,
          List.sum amounts,
          dot (feedData.map (fun f => f.harga)) amounts * jumlahTernak,
          List.sum amounts * jumlahTernak)

/-- Requirement thresholds in the association-list form of one inner dictionary
of `default_nutrition_requirements` (source lines 175-355). -/
def mkReq (pr td ca ph mg fe cu zn : ℚ) : List (String × ℚ) :=
  [("Protein (%)", pr), ("TDN (%)", td), ("Ca (%)", ca), ("P (%)", ph),
   ("Mg (%)", mg), ("Fe (ppm)", fe), ("Cu (ppm)", cu), ("Zn (ppm)", zn)]

/-- The dictionary returned by `default_nutrition_requirements()`
(source lines 175-355), transcribed value for value. -/
def defaultNutritionRequirements : List (String × List (String × List (String × ℚ))) :=
  [("Sapi Potong",
     [("Pedet (<6 bulan)", mkReq 18 70 (7/10) (9/20) (1/10) 50 10 40),
      ("Muda (6-12 bulan)", mkReq (25/2) 65 (11/20) (7/20) (1/10) 50 10 40),
      ("Dewasa (>12 bulan)", mkReq (21/2) 60 (7/20) (1/4) (1/10) 50 10 40),
      ("Bunting", mkReq 11 65 (9/20) (3/10) (3/25) 50 10 40),
      ("Penggemukan", mkReq 14 70 (1/2) (3/10) (1/10) 50 10 40)]),
   ("Sapi Perah",
     [("Pedet (<6 bulan)", mkReq 18 72 (7/10) (9/20) (1/10) 50 10 40),
      ("Dara (6-12 bulan)", mkReq 15 65 (3/5) (2/5) (1/10) 50 10 40),
      ("Dara Bunting", mkReq 12 65 (3/5) (2/5) (4/25) 50 10 40),
      ("Laktasi (Produksi Rendah)", mkReq 14 65 (3/5) (2/5) (1/5) 50 10 40),
      ("Laktasi (Produksi Tinggi)", mkReq 16 75 (4/5) (1/2) (1/4) 50 10 40),
      ("Kering", mkReq 12 60 (9/20) (7/20) (4/25) 50 10 40)]),
   ("Kambing Potong",
     [("Anak (<6 bulan)", mkReq 16 68 (3/5) (2/5) (1/10) 40 10 40),
      ("Muda (6-12 bulan)", mkReq 14 65 (9/20) (7/20) (1/10) 40 10 40),
      ("Dewasa (>12 bulan)", mkReq 12 60 (7/20) (1/4) (1/10) 40 8 40),
      ("Bunting", mkReq 14 65 (1/2) (7/20) (3/25) 50 10 40),
      ("Penggemukan", mkReq 16 70 (1/2) (3/10) (1/10) 40 10 40)]),
   ("Kambing Perah",
     [("Anak (<6 bulan)", mkReq 18 70 (7/10) (9/20) (1/10) 45 10 40),
      ("Dara (6-12 bulan)", mkReq 14 65 (11/20) (2/5) (1/10) 45 10 40),
      ("Dara Bunting", mkReq 12 65 (3/5) (2/5) (4/25) 45 10 40),
      ("Laktasi (Produksi Rendah)", mkReq 16 65 (3/4) (9/20) (1/5) 45 10 40),
      ("Laktasi (Produksi Tinggi)", mkReq 18 75 (9/10) (11/20) (1/4) 45 10 40),
      ("Kering", mkReq 12 60 (9/20) (7/20) (4/25) 45 10 40)]),
   ("Domba Potong",
     [("Anak (<6 bulan)", mkReq 16 68 (3/5) (2/5) (1/10) 40 7 35),
      ("Muda (6-12 bulan)", mkReq 14 65 (9/20) (7/20) (1/10) 40 7 35),
      ("Dewasa (>12 bulan)", mkReq 12 60 (7/20) (1/4) (1/10) 40 7 35),
      ("Bunting", mkReq 14 65 (1/2) (7/20) (3/25) 50 7 35),
      ("Penggemukan", mkReq 16 70 (1/2) (3/10) (1/10) 40 7 35)]),
   ("Domba Perah",
     [("Anak (<6 bulan)", mkReq 18 70 (7/10) (9/20) (1/10) 45 7 35),
      ("Dara (6-12 bulan)", mkReq 14 65 (11/20) (2/5) (1/10) 45 7 35),
      ("Dara Bunting", mkReq 12 65 (3/5) (2/5) (4/25) 45 7 35),
      ("Laktasi (Produksi Rendah)", mkReq 16 65 (3/4) (9/20) (1/5) 45 7 35),
      ("Laktasi (Produksi Tinggi)", mkReq 18 75 (9/10) (11/20) (1/4) 45 7 35),
      ("Kering", mkReq 12 60 (9/20) (7/20) (4/25) 45 7 35)])]

/-- The hardcoded fallback at source lines 368-372 ("Return default values if
nothing found"), reached only on the DataFrame path. -/
def fallbackRequirement : List (String × ℚ) :=
  mkReq 12 60 (2/5) (1/4) (1/10) 40 8 35

/-- The dictionary path of `get_nutrition_requirement` (source line 365):
`nutrition_data.get(jenis_hewan, {}).get(kategori_umur, {})` — an unknown pair
yields the empty dictionary, and this `return` is unconditional, so the
fallback block below it is unreachable on this path. -/
def get_nutrition_requirement_dict
    (data : List (String × List (String × List (String × ℚ))))
    (jenisHewan kategoriUmur : String) : List (String × ℚ) :=
  (List.lookup kategoriUmur ((List.lookup jenisHewan data).getD [])).getD []

/-- One row of the `kebutuhannutrisi.csv` DataFrame: the two key columns and
the remaining (nutrient, value) columns of the row. -/
structure ReqRow where
  jenisHewan : String
  kategoriUmur : String
  vals : List (String × ℚ)
deriving DecidableEq, Repr

/-- The DataFrame path of `get_nutrition_requirement` (source lines 359-372):
filter on both key columns, take the first matching row, and if the filter is
empty fall through to the hardcoded default requirement. -/
def get_nutrition_requirement_df (rows : List ReqRow)
    (jenisHewan kategoriUmur : String) : List (String × ℚ) :=
  match rows.filter (fun r => r.jenisHewan == jenisHewan && r.kategoriUmur == kategoriUmur) with
  | [] => fallbackRequirement
  | r :: _ => r.vals

/-- An uploaded feed table before validation. Each column is `none` when
absent from the upload; a cell is `none` when `astype(float)` would reject its
value (cells Python's `float` accepts, numeric strings included, carry their
numeric value). `nrows` is the row count `len(df)`. -/
structure UploadTable where
  nrows : ℕ
  namaCol : Option (List String)
  proteinCol : Option (List (Option ℚ))
  tdnCol : Option (List (Option ℚ))
  hargaCol : Option (List (Option ℚ))
  caCol : Option (List (Option ℚ))
  pCol : Option (List (Option ℚ))
  mgCol : Option (List (Option ℚ))
  feCol : Option (List (Option ℚ))
  cuCol : Option (List (Option ℚ))
  znCol : Option (List (Option ℚ))

/-- The generated names `f"Pakan {i+1}"` used when `Nama Pakan` is absent
(source line 403). -/
def generatedNames (n : ℕ) : List String :=
  (List.range n).map (fun i => "Pakan " ++ toString (i + 1))

/-- A missing numeric column is created filled with `0.0`
(source lines 404-405 and 418-419). -/
def colOrZero (c : Option (List (Option ℚ))) (n : ℕ) : List (Option ℚ) :=
  c.getD (List.replicate n (some 0))

/-- The `astype(float)` cast of one column: succeeds with the numeric values
exactly when every cell converts, and raises (yields `none`) otherwise. -/
def astype (c : List (Option ℚ)) : Option (List ℚ) :=
  c.mapM id

/-- The `try` block of `validasi_data_pakan_extended` (source lines 408-419):
cast the three required columns and the six mineral columns in order; any
failure raises the single `ValueError` handled at line 420. -/
def convertCols (t : UploadTable) :
    Option (List ℚ × List ℚ × List ℚ × List ℚ × List ℚ × List ℚ × List ℚ × List ℚ × List ℚ) := do
  let protein ← astype (colOrZero t.proteinCol t.nrows)
  let tdn ← astype (colOrZero t.tdnCol t.nrows)
  let harga ← astype (colOrZero t.hargaCol t.nrows)
  let ca ← astype (colOrZero t.caCol t.nrows)
  let p ← astype (colOrZero t.pCol t.nrows)
  let mg ← astype (colOrZero t.mgCol t.nrows)
  let fe ← astype (colOrZero t.feCol t.nrows)
  let cu ← astype (colOrZero t.cuCol t.nrows)
  let zn ← astype (colOrZero t.znCol t.nrows)
  pure (protein, tdn, harga, ca, p, mg, fe, cu, zn)

/-- The `Nama Pakan` column after the fill of source lines 400-403. -/
def fillNama (t : UploadTable) : List String :=
  t.namaCol.getD (generatedNames t.nrows)

/-- The validated table handed back as the second component of `(True, df)`. -/
structure CleanTable where
  nama : List String
  protein : List ℚ
  tdn : List ℚ
  harga : List ℚ
  ca : List ℚ
  p : List ℚ
  mg : List ℚ
  fe : List ℚ
  cu : List ℚ
  zn : List ℚ

/-- The pandas `duplicated().any()` test on the name column. -/
def hasDup : List String → Bool
  | [] => false
  | s :: rest => decide (s ∈ rest) || hasDup rest

/-- The function `validasi_data_pakan_extended` (source lines 394-433):
fill missing columns, cast to float (`ValueError` → "Nilai numerik tidak
valid"), then reject any protein above 100, any TDN above 100, any negative
price, and duplicated names, in that order; otherwise accept. `(False, msg)`
is `Except.error msg`, `(True, df)` is `Except.ok`. -/
def validasi_data_pakan_extended (t : UploadTable) : Except String CleanTable :=
  match convertCols t with
  | none => Except.error "Nilai numerik tidak valid"
  | some (protein, tdn, harga, ca, p, mg, fe, cu, zn) =>
    if protein.any (fun q => decide (100 < q)) then Except.error "Protein tidak boleh > 100%"
    else if tdn.any (fun q => decide (100 < q)) then Except.error "TDN tidak boleh > 100%"
    else if harga.any (fun q => decide (q < 0)) then Except.error "Harga tidak boleh negatif"
    else if hasDup (fillNama t) then Except.error "Terdapat duplikasi nama pakan"
    else Except.ok ⟨fillNama t, protein, tdn, harga, ca, p, mg, fe, cu, zn⟩

/-- Dot product with an all-ones row of matching length is the plain sum. -/
theorem dot_replicate_one (x : List ℚ) : dot (List.replicate x.length 1) x = List.sum x := by
  induction x with
  | nil => rfl
  | cons a as ih => simp [List.replicate_succ, dot, ih]

/-- Dot product with an all-minus-ones row of matching length is the negated sum. -/
theorem dot_replicate_neg_one (x : List ℚ) :
    dot (List.replicate x.length (-1)) x = -List.sum x := by
  induction x with
  | nil => simp [dot]
  | cons a as ih => simp [List.replicate_succ, dot, ih]; ring

/-- The two total-amount rows of the built LP bound the sum of any feasible
vector of the right length between `minA` and `maxA`. -/
theorem feasible_sum_bounds (feeds : List FeedRow) (req : NutrientReq) (minA maxA : ℚ)
    (x : List ℚ) (hlen : x.length = feeds.length)
    (hx : feasible (buildA feeds) (buildB req minA maxA) x) :
    minA ≤ List.sum x ∧ List.sum x ≤ maxA := by
  obtain ⟨-, hrows⟩ := hx
  have h8 := hrows ⟨8, by simp [buildA]⟩
  have h9 := hrows ⟨9, by simp [buildA]⟩
  simp only [buildA, buildB, List.getD_cons_succ, List.getD_cons_zero] at h8 h9
  rw [← hlen, dot_replicate_neg_one] at h8
  rw [← hlen, dot_replicate_one] at h9
  exact ⟨by linarith, h9⟩

/-- Raising objective coefficients pointwise cannot lower the objective value
at a nonnegative point. -/
theorem dot_le_dot_of_le (c c' x : List ℚ) (hcc : List.Forall₂ (· ≤ ·) c c')
    (hx : ∀ q ∈ x, 0 ≤ q) : dot c x ≤ dot c' x := by
  induction hcc generalizing x with
  | nil => cases x <;> simp [dot]
  | @cons a b as bs hab _ ih =>
    cases x with
    | nil => simp [dot]
    | cons q qs =>
      have hq : (0 : ℚ) ≤ q := hx q (by simp)
      have hrest := ih qs (fun r hr => hx r (by simp [hr]))
      have hhead : a * q ≤ b * q := mul_le_mul_of_nonneg_right hab hq
      simp only [dot]
      linarith

/-- Raise the unit cost of the feed at position `i` by `δ`, leaving every
other column of every row untouched. -/
def bumpCost : List FeedRow → ℕ → ℚ → List FeedRow
  | [], _, _ => []
  | f :: fs, 0, δ => { f with harga := f.harga + δ } :: fs
  | f :: fs, n + 1, δ => f :: bumpCost fs n δ

theorem bumpCost_length (feeds : List FeedRow) (i : ℕ) (δ : ℚ) :
    (bumpCost feeds i δ).length = feeds.length := by
  induction feeds generalizing i with
  | nil => rfl
  | cons f fs ih => cases i with
    | zero => rfl
    | succ n => simp [bumpCost, ih]

/-- Any projection that ignores the price column is unchanged by `bumpCost`. -/
theorem bumpCost_map_nutrient (g : FeedRow → ℚ)
    (hg : ∀ f δ, g { f with harga := f.harga + δ } = g f)
    (feeds : List FeedRow) (i : ℕ) (δ : ℚ) :
    (bumpCost feeds i δ).map g = feeds.map g := by
  induction feeds generalizing i with
  | nil => rfl
  | cons f fs ih => cases i with
    | zero => simp [bumpCost, hg]
    | succ n => simp [bumpCost, ih]

/-- The constraint system does not read the price column, so bumping a price
leaves it unchanged. -/
theorem buildA_bumpCost (feeds : List FeedRow) (i : ℕ) (δ : ℚ) :
    buildA (bumpCost feeds i δ) = buildA feeds := by
  unfold buildA
  rw [bumpCost_length,
      bumpCost_map_nutrient (fun f => -f.protein) (fun _ _ => rfl),
      bumpCost_map_nutrient (fun f => -f.tdn) (fun _ _ => rfl),
      bumpCost_map_nutrient (fun f => -f.ca) (fun _ _ => rfl),
      bumpCost_map_nutrient (fun f => -f.p) (fun _ _ => rfl),
      bumpCost_map_nutrient (fun f => -f.mg) (fun _ _ => rfl),
      bumpCost_map_nutrient (fun f => -f.fe) (fun _ _ => rfl),
      bumpCost_map_nutrient (fun f => -f.cu) (fun _ _ => rfl),
      bumpCost_map_nutrient (fun f => -f.zn) (fun _ _ => rfl)]

/-- Bumping one price raises the objective vector pointwise. -/
theorem objective_bumpCost_le (feeds : List FeedRow) (i : ℕ) (δ : ℚ) (hδ : 0 ≤ δ) :
    List.Forall₂ (· ≤ ·) (objective feeds) (objective (bumpCost feeds i δ)) := by
  induction feeds generalizing i with
  | nil => simp [bumpCost, objective]
  | cons f fs ih =>
    cases i with
    | zero =>
      refine List.Forall₂.cons (le_add_of_nonneg_right hδ) ?_
      exact List.forall₂_same.mpr (fun q _ => le_refl q)
    | succ n => exact List.Forall₂.cons (le_refl _) (ih n)

/-- A one-feed catalog with all nutrient columns zero and the given price. -/
def unitFeed (h : ℚ) : FeedRow :=
  ⟨"Rumput Uji", 0, 0, 0, 0, 0, 0, 0, 0, h⟩

/-- A requirement dictionary whose `get` yields zero for every key. -/
def zeroReq : NutrientReq := ⟨0, 0, 0, 0, 0, 0, 0, 0⟩

/-- With one zero-nutrient feed and zero requirements, the vector `[1]` is
feasible whenever the total bounds allow a total of one kilogram. -/
theorem unitFeed_feasible (h minA maxA : ℚ) (hmin : minA ≤ 1) (hmax : 1 ≤ maxA) :
    feasible (buildA [unitFeed h]) (buildB zeroReq minA maxA) [1] := by
  constructor
  · intro q hq
    simp at hq
    simp [hq]
  · intro i
    fin_cases i <;>
      simp [buildA, buildB, dot, unitFeed, zeroReq, neg_le_neg_iff, hmin, hmax]

/-- With one zero-nutrient feed, zero requirements and total bounds pinned to
one kilogram, the vector `[1]` is optimal for any nonnegative price. -/
theorem unitFeed_optimal (h : ℚ) (hh : 0 ≤ h) :
    isOptimal (objective [unitFeed h]) (buildA [unitFeed h]) (buildB zeroReq 1 1) [1] := by
  constructor
  · exact unitFeed_feasible h 1 1 le_rfl le_rfl
  · intro y hy
    obtain ⟨-, hrows⟩ := hy
    have h8 := hrows ⟨8, by simp [buildA]⟩
    simp only [buildA, buildB, List.getD_cons_succ, List.getD_cons_zero,
      List.length_cons, List.length_nil, List.replicate] at h8
    cases y with
    | nil => simp [dot] at h8; linarith
    | cons y0 ys =>
      have hy0 : 1 ≤ y0 := by simp [dot] at h8; linarith
      simp only [objective, unitFeed, List.map_cons, List.map_nil, dot]
      have : h * 1 ≤ h * y0 := mul_le_mul_of_nonneg_left hy0 hh
      linarith

/-- The duplicate test is exactly the failure of `Nodup`. -/
theorem hasDup_iff (l : List String) : hasDup l = true ↔ ¬ l.Nodup := by
  induction l with
  | nil => simp [hasDup]
  | cons s r ih =>
    simp only [hasDup, Bool.or_eq_true, decide_eq_true_eq, ih, List.nodup_cons]
    tauto

/-- C1 (amended): for every nutrient code in the active constraint set with
minimum threshold m, the constraint assembly emits exactly one inequality row
whose coefficient for ingredient i is the negated concentration
`-nutrients[i][n]`; its right-hand side is `-m * min_total_kg` for the
percentage nutrients (protein, TDN, Ca, P, Mg) but `-m * min_total_kg / 1000`
for the ppm nutrients (Fe, Cu, Zn). -/
theorem C1_nutrient_rows (feeds : List FeedRow) (req : NutrientReq) (minA maxA : ℚ)
    (n : Nutrient) :
    (buildA feeds).getD n.idx [] = feeds.map (fun f => -(n.conc f)) ∧
    (buildB req minA maxA).getD n.idx 0 =
      (if n.isPpm then -(n.reqOf req) * minA / 1000 else -(n.reqOf req) * minA) := by
  cases n <;>
    simp [buildA, buildB, Nutrient.idx, Nutrient.isPpm, Nutrient.conc, Nutrient.reqOf]

/-- A mineral-supplement row carrying 50 ppm of iron and nothing else. -/
def feSupplement : FeedRow := ⟨"Suplemen Fe", 0, 0, 0, 0, 0, 50, 0, 0, 100⟩

/-- A requirement set demanding only 50 ppm of iron. -/
def feOnlyReq : NutrientReq := ⟨0, 0, 0, 0, 0, 50, 0, 0⟩

/-- C1 counterexample: for the Fe row with threshold m = 50 and
min_total_kg = 5, the built right-hand side is not `-m * min_total_kg`
(the code produces `-50 * 5 / 1000 = -1/4`, not `-250`). -/
theorem C1_counterexample :
    (buildB feOnlyReq 5 10).getD Nutrient.fe.idx 0 ≠ -(Nutrient.fe.reqOf feOnlyReq) * 5 := by
  simp only [buildB, Nutrient.idx, Nutrient.reqOf, feOnlyReq, List.getD_cons_succ,
    List.getD_cons_zero]
  norm_num

/-- C2: evaluation of the built Fe constraint for a single-ingredient catalog
whose Fe concentration (50 ppm) exactly equals the requirement minimum, with
min_total_kg = max_total_kg = 5. The row coefficient keeps the concentration
in ppm unscaled (`-50`) while the right-hand side scales the threshold by
1/1000 (`-1/4` instead of the `-250` a uniform convention would give), so
threshold and coefficients are not scaled by one and the same convention;
the weighted-average round trip itself returns 50 at the forced solution
x = [5]. -/
theorem C2_ppm_row_mixed_units :
    (buildA [feSupplement]).getD 5 [] = [-(50 : ℚ)] ∧
    (buildB feOnlyReq 5 5).getD 5 0 = -(1/4 : ℚ) ∧
    -(50 : ℚ) * 5 ≠ -(1/4 : ℚ) ∧
    dot ([feSupplement].map (fun f => f.fe)) [5] / List.sum [(5 : ℚ)] = 50 := by
  refine ⟨?_, ?_, ?_, ?_⟩ <;> norm_num [buildA, buildB, feSupplement, feOnlyReq, dot]

/-- C3: on solver failure (`result.success` false, no solution vector), the
statement sequence that the source's indentation dictates at lines 1219-1227
emits the failure error, then the success banner "Optimasi berhasil!", then a
second failure error, and returns early — so the failure path presents
success output, contradicting the intended branching. -/
theorem C3_failure_branch_emits_success :
    solverFailureBranch false none =
      ([UIMsg.errorMsg "Optimasi gagal. Silakan periksa kembali input dan batasan.",
        UIMsg.successMsg "Optimasi berhasil!",
        UIMsg.errorMsg "Optimasi gagal atau menghasilkan data yang tidak valid. Silakan periksa kembali input dan batasan."],
       true) ∧
    UIMsg.successMsg "Optimasi berhasil!" ∈ (solverFailureBranch false none).1 :=
  ⟨rfl, List.Mem.tail _ (List.Mem.head _)⟩

/-- C4: the built LP contains the total-intake rows `-Σx ≤ -min_total_kg`
(row 8) and `Σx ≤ max_total_kg` (row 9), and consequently every feasible —
in particular every optimal — solution of the right length has its total
between `min_total_kg` and `max_total_kg`. -/
theorem C4_total_intake_bounds (feeds : List FeedRow) (req : NutrientReq)
    (minA maxA : ℚ) (x : List ℚ) (hlen : x.length = feeds.length)
    (hx : feasible (buildA feeds) (buildB req minA maxA) x) :
    (buildA feeds).getD 8 [] = List.replicate feeds.length (-1) ∧
    (buildB req minA maxA).getD 8 0 = -minA ∧
    (buildA feeds).getD 9 [] = List.replicate feeds.length 1 ∧
    (buildB req minA maxA).getD 9 0 = maxA ∧
    minA ≤ List.sum x ∧ List.sum x ≤ maxA := by
  have hb := feasible_sum_bounds feeds req minA maxA x hlen hx
  exact ⟨by simp [buildA], by simp [buildB], by simp [buildA], by simp [buildB], hb.1, hb.2⟩

/-- C4 witness: a concrete feasible point of a concrete built LP, with its
total inside the bounds. -/
theorem C4_total_intake_bounds_witness :
    feasible (buildA [unitFeed 2]) (buildB zeroReq 1 2) [1] ∧
    ((1 : ℚ) ≤ List.sum [(1 : ℚ)] ∧ List.sum [(1 : ℚ)] ≤ 2) := by
  have hf : feasible (buildA [unitFeed 2]) (buildB zeroReq 1 2) [1] :=
    unitFeed_feasible 2 1 2 (by norm_num) (by norm_num)
  exact ⟨hf, (C4_total_intake_bounds [unitFeed 2] zeroReq 1 2 [1] rfl hf).2.2.2.2⟩

/-- C5 (amended): for every known (species, life-stage) pair the resolver
returns that pair's thresholds, but for an unknown pair it does not fail:
the dictionary path returns the empty mapping, and the DataFrame path
silently substitutes the hardcoded default requirement. -/
theorem C5_resolver_behavior (data : List (String × List (String × List (String × ℚ))))
    (rows : List ReqRow) (jenisHewan kategoriUmur : String) :
    (∀ stages req, List.lookup jenisHewan data = some stages →
        List.lookup kategoriUmur stages = some req →
        get_nutrition_requirement_dict data jenisHewan kategoriUmur = req) ∧
    (List.lookup kategoriUmur ((List.lookup jenisHewan data).getD []) = none →
        get_nutrition_requirement_dict data jenisHewan kategoriUmur = []) ∧
    (rows.filter (fun r => r.jenisHewan == jenisHewan && r.kategoriUmur == kategoriUmur) = [] →
        get_nutrition_requirement_df rows jenisHewan kategoriUmur = fallbackRequirement) := by
  refine ⟨?_, ?_, ?_⟩
  · intro stages req h1 h2
    simp [get_nutrition_requirement_dict, h1, h2]
  · intro h
    simp [get_nutrition_requirement_dict, h]
  · intro h
    simp [get_nutrition_requirement_df, h]

/-- C5 witness: a known pair of the default table resolves to its transcribed
thresholds, and an empty DataFrame resolves any pair to the fallback. -/
theorem C5_resolver_behavior_witness :
    get_nutrition_requirement_dict defaultNutritionRequirements "Sapi Potong" "Bunting" =
      mkReq 11 65 (9/20) (3/10) (3/25) 50 10 40 ∧
    get_nutrition_requirement_df [] "Sapi Potong" "Bunting" = fallbackRequirement := by
  constructor
  · exact (C5_resolver_behavior defaultNutritionRequirements [] "Sapi Potong" "Bunting").1
      _ _ rfl rfl
  · exact (C5_resolver_behavior defaultNutritionRequirements [] "Sapi Potong" "Bunting").2.2 rfl

/-- C5 counterexample: an unknown (species, life-stage) pair does not produce
a NotFoundError — the dictionary path returns a value (the empty mapping) and
the DataFrame path returns the nonempty hardcoded default requirement. -/
theorem C5_counterexample :
    get_nutrition_requirement_dict defaultNutritionRequirements "Kuda" "Dewasa (>12 bulan)" = [] ∧
    get_nutrition_requirement_df [] "Kuda" "Dewasa (>12 bulan)" = fallbackRequirement ∧
    fallbackRequirement ≠ [] := by
  refine ⟨rfl, rfl, ?_⟩
  simp [fallbackRequirement, mkReq]

/-- C6 (amended): for every feasible — hence every optimal — solution with
min_total_kg > 0 the divisor `total_amt = Σx` of the realized-nutrient and
cost-per-kg computations is nonzero and the average computation succeeds; and
`calculate_nutrition_content` answers a zero (or negative) total with its
all-None sentinel instead of dividing. (The optimization handler itself,
by contrast, has no guard: see the counterexample.) -/
theorem C6_divisor_nonzero (feeds : List FeedRow) (req : NutrientReq) (minA maxA : ℚ)
    (x : List ℚ) (hlen : x.length = feeds.length) (hmin : 0 < minA)
    (hx : feasible (buildA feeds) (buildB req minA maxA) x) :
    List.sum x ≠ 0 ∧ (∃ v, optAvgProtein feeds x = Except.ok v) ∧
    (∀ fd amts j, List.sum amts ≤ 0 → calculate_nutrition_content fd amts j = none) := by
  have hb := feasible_sum_bounds feeds req minA maxA x hlen hx
  have hpos : 0 < List.sum x := lt_of_lt_of_le hmin hb.1
  refine ⟨ne_of_gt hpos,
    ⟨dot (feeds.map (fun f => f.protein / 100)) x * 100 / List.sum x, ?_⟩, ?_⟩
  · unfold optAvgProtein
    rw [if_neg (ne_of_gt hpos)]
  · intro fd amts j hle
    unfold calculate_nutrition_content
    rw [if_pos hle]

/-- C6 witness: a concrete feasible point of a concrete built LP with a
positive minimum total, whose divisor is nonzero and whose average protein
computation succeeds. -/
theorem C6_divisor_nonzero_witness :
    feasible (buildA [unitFeed 2]) (buildB zeroReq 1 1) [1] ∧
    (List.sum [(1 : ℚ)] ≠ 0 ∧ ∃ v, optAvgProtein [unitFeed 2] [1] = Except.ok v) := by
  have hf : feasible (buildA [unitFeed 2]) (buildB zeroReq 1 1) [1] :=
    unitFeed_feasible 2 1 1 le_rfl le_rfl
  have h := C6_divisor_nonzero [unitFeed 2] zeroReq 1 1 [1] rfl (by norm_num) hf
  exact ⟨hf, h.1, h.2.1⟩

/-- C6 counterexample: if a zero total does reach the optimization handler's
summary computation (source line 1287), the code performs the division and
raises ZeroDivisionError; it does not classify the result as
NUMERICAL_FAILURE. -/
theorem C6_counterexample :
    optAvgProtein [unitFeed 2] [0] = Except.error "ZeroDivisionError" := by
  unfold optAvgProtein
  norm_num

/-- C7 (amended): an empty selected-ingredient list makes the guard
`if st.button(...) and all_available_feeds:` falsy, so no LP is built or
solved — but silently: nothing is raised or reported. -/
theorem C7_empty_catalog_silent (pressed : Bool) (req : NutrientReq) (minA maxA : ℚ) :
    optimizeHandler pressed [] req minA maxA = OptOutcome.notRun := by
  cases pressed <;> rfl

/-- C7 counterexample: pressing the optimize button with an empty ingredient
set does not fail with an EmptyCatalogError; the outcome is the silent no-op,
indistinguishable from never pressing the button. -/
theorem C7_counterexample :
    optimizeHandler true [] zeroReq 5 10 = OptOutcome.notRun ∧
    optimizeHandler true [] zeroReq 5 10 = optimizeHandler false [] zeroReq 5 10 :=
  ⟨rfl, rfl⟩

/-- C8: cost monotonicity — with the catalog, requirement and bounds fixed,
raising one ingredient's unit cost by δ ≥ 0 never decreases the total cost of
the optimal solution (the constraint system is unchanged by the price bump,
and the LP optimum value is weakly monotone in the objective coefficients over
nonnegative solutions). -/
theorem C8_cost_monotonicity (feeds : List FeedRow) (req : NutrientReq) (minA maxA : ℚ)
    (i : ℕ) (δ : ℚ) (hδ : 0 ≤ δ) (x x' : List ℚ)
    (hx : isOptimal (objective feeds) (buildA feeds) (buildB req minA maxA) x)
    (hx' : isOptimal (objective (bumpCost feeds i δ)) (buildA (bumpCost feeds i δ))
      (buildB req minA maxA) x') :
    dot (objective feeds) x ≤ dot (objective (bumpCost feeds i δ)) x' := by
  have hfeas' : feasible (buildA feeds) (buildB req minA maxA) x' := by
    have h := hx'.1
    rwa [buildA_bumpCost] at h
  have h1 : dot (objective feeds) x ≤ dot (objective feeds) x' := hx.2 x' hfeas'
  have h2 : dot (objective feeds) x' ≤ dot (objective (bumpCost feeds i δ)) x' :=
    dot_le_dot_of_le _ _ _ (objective_bumpCost_le feeds i δ hδ) hfeas'.1
  linarith

/-- C8 witness: bumping the single feed's price from 2 to 3 in a concrete
instance whose optimum is pinned at x = [1] does not decrease the optimal
cost. -/
theorem C8_cost_monotonicity_witness :
    dot (objective [unitFeed 2]) [1] ≤ dot (objective (bumpCost [unitFeed 2] 0 1)) [1] := by
  have hb : bumpCost [unitFeed 2] 0 1 = [unitFeed 3] := by
    simp only [bumpCost, unitFeed]
    norm_num
  exact C8_cost_monotonicity [unitFeed 2] zeroReq 1 1 0 1 (by norm_num) [1] [1]
    (unitFeed_optimal 2 (by norm_num))
    (by rw [hb]; exact unitFeed_optimal 3 (by norm_num))

/-- C9 (amended): the two number inputs enforce min_amount ≥ 1 and
max_amount ≥ 1, so every problem reaching the builder has 0 < min_total_kg
and 0 < max_total_kg; but min ≤ max is not enforced — the handler attempts
the solve regardless, and when max_total_kg < min_total_kg the built LP has
no feasible point of the right length. -/
theorem C9_bounds_invariant (feeds : List FeedRow) (req : NutrientReq) (minA maxA : ℚ)
    (hne : feeds ≠ []) (hmin : 1 ≤ minA) (hmax : 1 ≤ maxA) :
    0 < minA ∧ 0 < maxA ∧
    optimizeHandler true feeds req minA maxA =
      OptOutcome.ran (objective feeds) (buildA feeds) (buildB req minA maxA) ∧
    (maxA < minA → ∀ x, x.length = feeds.length →
      ¬ feasible (buildA feeds) (buildB req minA maxA) x) := by
  refine ⟨by linarith, by linarith, ?_, ?_⟩
  · have hemp : feeds.isEmpty = false := by
      cases feeds with
      | nil => exact absurd rfl hne
      | cons f fs => rfl
    simp [optimizeHandler, hemp]
  · intro hlt x hlen hx
    have hb := feasible_sum_bounds feeds req minA maxA x hlen hx
    linarith

/-- C9 witness: with the widget-permitted values min = 5, max = 10 and a
nonempty catalog, the handler runs the solve and the minimum is positive. -/
theorem C9_bounds_invariant_witness :
    (0 : ℚ) < 5 ∧
    optimizeHandler true [unitFeed 2] zeroReq 5 10 =
      OptOutcome.ran (objective [unitFeed 2]) (buildA [unitFeed 2]) (buildB zeroReq 5 10) := by
  have h := C9_bounds_invariant [unitFeed 2] zeroReq 5 10 (by simp) (by norm_num) (by norm_num)
  exact ⟨h.1, h.2.2.1⟩

/-- C9 counterexample: min = 8 and max = 5 are both accepted by the widgets,
and the handler still hands the problem to the solver even though the minimum
total exceeds the maximum total. -/
theorem C9_counterexample :
    optimizeHandler true [unitFeed 2] zeroReq 8 5 =
      OptOutcome.ran (objective [unitFeed 2]) (buildA [unitFeed 2]) (buildB zeroReq 8 5) ∧
    ¬ ((8 : ℚ) ≤ 5) := by
  refine ⟨rfl, by norm_num⟩

/-- C10: the upload validator accepts (returns the validated table) exactly
when, after zero-filling the missing required and mineral columns, every cell
converts to a number, every protein and TDN value is at most 100, every price
is nonnegative, and the (possibly generated) names are pairwise distinct; in
every other case it returns an error message. -/
theorem C10_upload_validator (t : UploadTable) :
    (∃ c, validasi_data_pakan_extended t = Except.ok c) ↔
    (∃ protein tdn harga ca p mg fe cu zn,
       convertCols t = some (protein, tdn, harga, ca, p, mg, fe, cu, zn) ∧
       (∀ q ∈ protein, q ≤ 100) ∧ (∀ q ∈ tdn, q ≤ 100) ∧
       (∀ q ∈ harga, 0 ≤ q) ∧ (fillNama t).Nodup) := by
  constructor
  · rintro ⟨c, hc⟩
    unfold validasi_data_pakan_extended at hc
    cases hcv : convertCols t with
    | none => rw [hcv] at hc; cases hc
    | some tup =>
      obtain ⟨protein, tdn, harga, ca, p, mg, fe, cu, zn⟩ := tup
      simp only [hcv] at hc
      by_cases h1 : protein.any (fun q => decide (100 < q)) = true
      · rw [if_pos h1] at hc; cases hc
      · rw [if_neg h1] at hc
        by_cases h2 : tdn.any (fun q => decide (100 < q)) = true
        · rw [if_pos h2] at hc; cases hc
        · rw [if_neg h2] at hc
          by_cases h3 : harga.any (fun q => decide (q < 0)) = true
          · rw [if_pos h3] at hc; cases hc
          · rw [if_neg h3] at hc
            by_cases h4 : hasDup (fillNama t) = true
            · rw [if_pos h4] at hc; cases hc
            · refine ⟨protein, tdn, harga, ca, p, mg, fe, cu, zn, rfl, ?_, ?_, ?_, ?_⟩
              · intro q hq
                by_contra hgt
                exact h1 (List.any_eq_true.mpr ⟨q, hq, by simpa [not_le] using hgt⟩)
              · intro q hq
                by_contra hgt
                exact h2 (List.any_eq_true.mpr ⟨q, hq, by simpa [not_le] using hgt⟩)
              · intro q hq
                by_contra hgt
                exact h3 (List.any_eq_true.mpr ⟨q, hq, by simpa [not_le] using hgt⟩)
              · by_contra hnd
                exact h4 (hasDup_iff (fillNama t) |>.mpr hnd)
  · rintro ⟨protein, tdn, harga, ca, p, mg, fe, cu, zn, hcv, hpr, htd, hhg, hnd⟩
    refine ⟨⟨fillNama t, protein, tdn, harga, ca, p, mg, fe, cu, zn⟩, ?_⟩
    unfold validasi_data_pakan_extended
    rw [hcv]
    have h1 : protein.any (fun q => decide (100 < q)) = false := by
      simp only [List.any_eq_false, decide_eq_true_eq, not_lt]
      exact hpr
    have h2 : tdn.any (fun q => decide (100 < q)) = false := by
      simp only [List.any_eq_false, decide_eq_true_eq, not_lt]
      exact htd
    have h3 : harga.any (fun q => decide (q < 0)) = false := by
      simp only [List.any_eq_false, decide_eq_true_eq, not_lt]
      exact hhg
    have h4 : hasDup (fillNama t) = false := by
      rw [← Bool.not_eq_true, hasDup_iff]
      exact not_not_intro hnd
    simp [h1, h2, h3, h4]

end Ransum
